import Mathlib

set_option maxRecDepth 8000

/-!
Verification development for the detext reference-tracking editor.

The definitions below are a shallow embedding of the editor core found in
the repository (the `Editor` component with activity counters, sampler and
question generation, the question-generation API route handler, and the
event-log page).  The editable document is modelled as an ordered list of
inline nodes; DOM positions are indices between nodes; event handlers are
state-transition functions.
-/

namespace Detext

/-- Characters stripped by trimming and matched by the whitespace class in
the string methods modelled below. -/
def trimChars (cs : List Char) : List Char :=
  ((cs.dropWhile Char.isWhitespace).reverse.dropWhile Char.isWhitespace).reverse

/-- The `trim()` string method, computed on the character list so that it
evaluates inside the kernel. -/
def strTrim (s : String) : String := ⟨trimChars s.data⟩

/-- Character-list core of the `startsWith` string method. -/
def startsWithChars : List Char → List Char → Bool
  | _, [] => true
  | [], _ :: _ => false
  | c :: cs, p :: ps => c == p && startsWithChars cs ps

/-- The `startsWith` string method, computed on the character lists. -/
def strStartsWith (s pat : String) : Bool := startsWithChars s.data pat.data

/-- Split a character list on newline characters (the `split` on a newline
used by the question extraction). -/
def splitLinesChars : List Char → List (List Char)
  | [] => [[]]
  | c :: rest =>
    match splitLinesChars rest with
    | [] => [[]]
    | line :: ls => if c == '\n' then [] :: line :: ls else (c :: line) :: ls

/-- Split a string into its newline-separated lines. -/
def strLines (s : String) : List String := (splitLinesChars s.data).map fun cs => ⟨cs⟩

/-- A node of the editable document: a plain text run, a committed reference
span (a `span` element carrying a `data-ref-id` attribute and the reference
text as content), the transient paste position marker
(`span#paste-position-marker`, zero width, no text content), or the empty
editable container span (`span[data-normal]`) inserted after a reference. -/
inductive DNode where
  | text (s : String)
  | refSpan (id : String) (content : String)
  | marker
  | normalSpan (content : String)
deriving DecidableEq

/-- The visible text contributed by one node (its `innerText`).  The marker
is an empty zero-size span, so it contributes nothing. -/
def DNode.visibleText : DNode → String
  | .text s => s
  | .refSpan _ c => c
  | .marker => ""
  | .normalSpan c => c

/-- The document's visible text content (`editor.innerText`). -/
def docText (d : List DNode) : String :=
  (d.map DNode.visibleText).foldl (· ++ ·) ""

/-- Whether a node is the paste position marker. -/
def isMarker : DNode → Bool
  | .marker => true
  | _ => false

/-- Whether a node is a reference span carrying the given id. -/
def isRefSpanId (id : String) : DNode → Bool
  | .refSpan i _ => i == id
  | _ => false

/-- Whether the document contains a paste position marker
(`document.getElementById` finding the marker). -/
def hasMarker (d : List DNode) : Bool := d.any isMarker

/-- Number of paste position markers present in the document. -/
def markerCount (d : List DNode) : Nat := d.countP isMarker

/-- Number of reference spans carrying the given id. -/
def refSpanCount (id : String) (d : List DNode) : Nat :=
  d.countP (isRefSpanId id)

/-- The reference ids currently present as `data-ref-id` span attributes in
the document, in document order (`editor.querySelectorAll` with the
attribute selector). -/
def docRefIds (d : List DNode) : List String :=
  d.filterMap fun n => match n with
    | .refSpan i _ => some i
    | _ => none

/-- Remove the first marker from the document
(`parent.removeChild(marker)` on the node found by id lookup). -/
def removeFirstMarker : List DNode → List DNode
  | [] => []
  | n :: rest => if isMarker n then rest else n :: removeFirstMarker rest

/-- Replace the first marker with a block of nodes: the commit path inserts
the block immediately before the marker and then removes the marker. -/
def replaceFirstMarker (block : List DNode) : List DNode → List DNode
  | [] => []
  | n :: rest => if isMarker n then block ++ rest else n :: replaceFirstMarker block rest

/-- Remove the first reference span carrying the given id
(`findSpanById(id)` followed by `span.remove()`); no change when absent. -/
def removeFirstRefSpan (id : String) : List DNode → List DNode
  | [] => []
  | n :: rest => if isRefSpanId id n then rest else n :: removeFirstRefSpan id rest

/-- Insert a block of nodes at a cursor position: at index `i` when a
selection range exists, appended at document end otherwise. -/
def insertAt (cursor : Option Nat) (block : List DNode) (d : List DNode) : List DNode :=
  match cursor with
  | some i => d.take i ++ block ++ d.drop i
  | none => d ++ block

/-- A stored reference record: `{id, text, citation}`. -/
structure Reference where
  id : String
  text : String
  citation : String
deriving DecidableEq

/-- The state of the `Editor` component: the editable document, the
reference store, the staged paste text and dialog flag, the citation input,
the cumulative keystroke/deletion counters with their sampled series, and
the last observed text-length baseline. -/
structure EditorState where
  doc : List DNode
  references : List Reference
  selectedText : String
  isDialogOpen : Bool
  citation : String
  charAmount : Nat
  backspaceAmount : Nat
  charSeries : List Nat
  backspaceSeries : List Nat
  oldTextLength : Nat
deriving DecidableEq

/-- The freshly mounted editor: empty document, empty store, zeroed
counters, empty series. -/
def initState : EditorState :=
  { doc := []
    references := []
    selectedText := ""
    isDialogOpen := false
    citation := ""
    charAmount := 0
    backspaceAmount := 0
    charSeries := []
    backspaceSeries := []
    oldTextLength := 0 }

/-- `handleEditorPaste`: when the clipboard text is non-empty after
trimming, suppress the default paste, stage the text, insert the position
marker at the cursor (append at end when no range exists) and open the
dialog; otherwise the handler does nothing and the default paste inserts
the clipboard text. -/
def handleEditorPaste (clip : String) (cursor : Option Nat)
    (s : EditorState) : EditorState :=
  if strTrim clip = "" then
    { s with doc := insertAt cursor [DNode.text clip] s.doc }
  else
    { s with
      selectedText := clip
      doc := insertAt cursor [DNode.marker] s.doc
      isDialogOpen := true }

/-- The dialog-close effect: when the dialog is closed, look up the marker;
if absent, do nothing.  Otherwise decide whether the close was a commit by
testing whether some stored reference's text equals the staged text
(`wasAddedAsReference`); if so leave the document alone, else remove the
marker without inserting any text. -/
def dialogCloseEffect (s : EditorState) : EditorState :=
  if s.isDialogOpen then s
  else if hasMarker s.doc = false then s
  else
    let wasAddedAsReference := s.references.any fun r => r.text == s.selectedText
    if wasAddedAsReference then s
    else { s with doc := removeFirstMarker s.doc }

/-- Dialog dismissal without an explicit commit (`onOpenChange(false)`):
the open flag drops to `false` and the close effect runs. -/
def dismissDialog (s : EditorState) : EditorState :=
  dialogCloseEffect { s with isDialogOpen := false }

/-- `handleCancelDialog`: the Cancel button closes the dialog and clears
the citation input; the close effect then runs. -/
def handleCancelDialog (s : EditorState) : EditorState :=
  dialogCloseEffect { s with isDialogOpen := false, citation := "" }

/-- The non-breaking separator inserted after a committed reference span. -/
def nbsp : String := " "

/-- `handleAddReference`: a commit requires the citation and the staged
text to be non-empty after trimming, else it is a no-op.  On success a new
reference (with a fresh id from `Date.now()`, passed here as `newId`) is
appended to the store, and the block [reference span, non-breaking space,
empty normal span] replaces the marker (or is inserted at the current
cursor / appended at end when no marker exists); the dialog closes, the
citation input clears, and the close effect runs. -/
def handleAddReference (newId : String) (fallbackCursor : Option Nat)
    (s : EditorState) : EditorState :=
  if strTrim s.citation = "" ∨ strTrim s.selectedText = "" then s
  else
    let newRef : Reference := ⟨newId, s.selectedText, s.citation⟩
    let block : List DNode :=
      [DNode.refSpan newId s.selectedText, DNode.text nbsp, DNode.normalSpan ""]
    let doc' :=
      if hasMarker s.doc then replaceFirstMarker block s.doc
      else insertAt fallbackCursor block s.doc
    dialogCloseEffect
      { s with
        references := s.references ++ [newRef]
        doc := doc'
        isDialogOpen := false
        citation := "" }

/-- `handleEditorInput`: runs after the document was mutated to `doc'`.
It reads the new visible text length, takes the absolute delta against the
stored baseline, updates the baseline, attributes the delta to the
keystroke counter for `insertText` events and to the deletion counter for
`delete*` events (other input types touch neither counter), and filters the
reference store down to the ids still present as span attributes. -/
def handleEditorInput (inputType : String) (doc' : List DNode)
    (s : EditorState) : EditorState :=
  let length := (docText doc').length
  let delta := ((length : Int) - (s.oldTextLength : Int)).natAbs
  let charAmount' :=
    if inputType == "insertText" then s.charAmount + delta else s.charAmount
  let backspaceAmount' :=
    if inputType == "insertText" then s.backspaceAmount
    else if strStartsWith inputType "delete" then s.backspaceAmount + delta
    else s.backspaceAmount
  { s with
    doc := doc'
    oldTextLength := length
    charAmount := charAmount'
    backspaceAmount := backspaceAmount'
    references := s.references.filter fun r => (docRefIds doc').contains r.id }

/-- `handleRemoveReference`: the sidebar remove action filters the store by
id and removes the first span carrying that id from the document. -/
def handleRemoveReference (id : String) (s : EditorState) : EditorState :=
  { s with
    references := s.references.filter fun r => r.id ≠ id
    doc := removeFirstRefSpan id s.doc }

/-- `handleClearDocument`: the explicit clear action zeroes both counters,
empties both activity series, empties the document and empties the
reference store in one step. -/
def handleClearDocument (s : EditorState) : EditorState :=
  { s with
    charAmount := 0
    backspaceAmount := 0
    charSeries := []
    backspaceSeries := []
    doc := []
    references := [] }

/-- One sampler tick: append the current cumulative counters to their
series, unconditionally. -/
def samplerTick (s : EditorState) : EditorState :=
  { s with
    charSeries := s.charSeries ++ [s.charAmount]
    backspaceSeries := s.backspaceSeries ++ [s.backspaceAmount] }

/-- `N` consecutive sampler ticks with no intervening edits. -/
def ticks : Nat → EditorState → EditorState
  | 0, s => s
  | n + 1, s => ticks n (samplerTick s)

/-- Typing into the citation input field (`setCitation`). -/
def setCitationInput (c : String) (s : EditorState) : EditorState :=
  { s with citation := c }

/-- The editor's user-visible operations. -/
inductive EditorEvent where
  | paste (clip : String) (cursor : Option Nat)
  | input (inputType : String) (doc' : List DNode)
  | citationInput (c : String)
  | addReference (newId : String) (fallbackCursor : Option Nat)
  | cancelDialog
  | dismissDialog
  | removeReference (id : String)
  | clearDocument
  | tick
deriving DecidableEq

/-- The editor's transition function, dispatching each operation to the
handler translated above. -/
def step : EditorEvent → EditorState → EditorState
  | .paste clip cursor, s => handleEditorPaste clip cursor s
  | .input t d, s => handleEditorInput t d s
  | .citationInput c, s => setCitationInput c s
  | .addReference i fb, s => handleAddReference i fb s
  | .cancelDialog, s => handleCancelDialog s
  | .dismissDialog, s => Detext.dismissDialog s
  | .removeReference i, s => handleRemoveReference i s
  | .clearDocument, s => handleClearDocument s
  | .tick, s => samplerTick s

/-- The `text` field of the request body as JavaScript sees it: a string,
or some non-string value (its truthiness is irrelevant because the
`typeof` check rejects every non-string). -/
inductive BodyText where
  | str (s : String)
  | nonString
deriving DecidableEq

/-- The request-body validation of the API route:
`!text || typeof text !== 'string' || text.trim().length < 30`.
For a string, falsiness means the empty string. -/
def invalidInput (text : Option BodyText) : Bool :=
  match text with
  | none => true
  | some .nonString => true
  | some (.str s) => s == "" || (strTrim s).length < 30

/-- The upstream (Gemini) call's observable outcome: a reply whose
`response.ok` is false (so its status lies outside the 2xx range), a 2xx
reply whose parsed body may or may not contain
`candidates[0].content.parts` (carrying `parts[0].text` when it does), or a
thrown transport error. -/
inductive UpstreamResult where
  | httpError (status : Nat) (notOk : status < 200 ∨ 300 ≤ status)
  | ok (responseText : Option String)
  | threw

/-- The route handler's response as observed by the client, together with
whether the upstream call was issued at all. -/
structure ApiResponse where
  status : Nat
  questions : List String
  error : Option String
  calledUpstream : Bool
deriving DecidableEq

/-- Strip the `Q:` tag from a trimmed line
(`line.trim().replace(regex for a leading Q-colon and whitespace, '')`). -/
def stripQTag (t : String) : String :=
  if strStartsWith t "Q:" then ⟨(t.data.drop 2).dropWhile Char.isWhitespace⟩ else t

/-- Extract candidate questions from the upstream reply text: split on
newlines, keep the lines whose trimmed form starts with `Q:`, strip the tag
from the trimmed line, and drop lines that became empty
(`.filter(Boolean)`). -/
def extractQuestions (responseText : String) : List String :=
  (((strLines responseText).filter fun line => strStartsWith (strTrim line) "Q:").map
    fun line => stripQTag (strTrim line)).filter fun q => q ≠ ""

/-- The fixed default question used for padding. -/
def defaultQuestion : String := "What is the main idea of this text?"

/-- Pad with the default question while fewer than 3, then truncate to at
most 3. -/
def padQuestions (qs : List String) : List String :=
  (qs ++ List.replicate (3 - qs.length) defaultQuestion).take 3

/-- The `/api/generate-questions` route handler: method check, input
validation, API-key check, upstream call, question extraction, padding and
truncation.  The `calledUpstream` flag records whether the `fetch` to the
upstream service happened on that path. -/
def handler (method : String) (text : Option BodyText) (apiKey : Option String)
    (upstream : UpstreamResult) : ApiResponse :=
  if method ≠ "POST" then
    { status := 405, questions := [], error := some "Method not allowed", calledUpstream := false }
  else if invalidInput text then
    { status := 400, questions := [], error := some "Invalid input", calledUpstream := false }
  else
    match apiKey with
    | none =>
      { status := 500, questions := [], error := some "Server configuration error",
        calledUpstream := false }
    | some _ =>
      match upstream with
      | .httpError st _ =>
        { status := st, questions := [], error := some "Gemini API error", calledUpstream := true }
      | .threw =>
        { status := 500, questions := [], error := some "Failed to generate questions",
          calledUpstream := true }
      | .ok responseText =>
        let questions :=
          match responseText with
          | some rt => extractQuestions rt
          | none => []
        { status := 200, questions := padQuestions questions, error := none,
          calledUpstream := true }

/-- The synchronous decision prefix of `handleGenerateQuestions` in the
editor: what it does before (and whether it reaches) the network call. -/
structure GenOutcome where
  requested : Bool
  alerted : Bool
  busyAfterStart : Bool
  dialogOpened : Bool
deriving DecidableEq

/-- `handleGenerateQuestions`: reads the document text; when it is empty or
under 30 trimmed characters, alerts the user and returns without any
network call; otherwise sets the busy flag, opens the questions dialog and
issues the request.  The incoming busy flag `busy`
(`isGeneratingQuestions`) is recorded but never consulted by the code. -/
def handleGenerateQuestions (text : String) (busy : Bool) : GenOutcome :=
  if text = "" ∨ (strTrim text).length < 30 then
    { requested := false, alerted := true, busyAfterStart := busy, dialogOpened := false }
  else
    { requested := true, alerted := false, busyAfterStart := true, dialogOpened := true }

/-- The type tag of an event-log record. -/
inductive EventType where
  | keypress
  | click
  | change
deriving DecidableEq

/-- Pointer coordinates of a click record. -/
structure Coords where
  x : ℚ
  y : ℚ
deriving DecidableEq

/-- An `EventLogEntry` of the event-log page: a timestamp, a type tag and
the type-specific optional payload fields. -/
structure EventLogEntry where
  timestamp : ℚ
  type : EventType
  value : Option String
  key : Option String
  coords : Option Coords
deriving DecidableEq

/-- A JSON value, with object fields kept in insertion order (the order
`JSON.stringify` serializes them in). -/
inductive Json where
  | num (q : ℚ)
  | str (s : String)
  | arr (elems : List Json)
  | obj (fields : List (String × Json))

/-- The serialized type tag. -/
def typeTag : EventType → String
  | .keypress => "keypress"
  | .click => "click"
  | .change => "change"

/-- Decode a type tag. -/
def decodeType (s : String) : Option EventType :=
  if s = "keypress" then some .keypress
  else if s = "click" then some .click
  else if s = "change" then some .change
  else none

/-- Serialize one event-log record the way `JSON.stringify` serializes the
objects built by `logEvent`: fields in insertion order — `timestamp`,
`type`, then whichever payload fields are present (`undefined` fields are
omitted). -/
def serializeEntry (e : EventLogEntry) : Json :=
  Json.obj
    ([("timestamp", Json.num e.timestamp), ("type", Json.str (typeTag e.type))]
      ++ (match e.value with
          | some v => [("value", Json.str v)]
          | none => [])
      ++ (match e.key with
          | some k => [("key", Json.str k)]
          | none => [])
      ++ (match e.coords with
          | some c => [("coords", Json.obj [("x", Json.num c.x), ("y", Json.num c.y)])]
          | none => []))

/-- `exportLog`: the whole event log serialized as a JSON array, in order. -/
def serializeLog (es : List EventLogEntry) : Json :=
  Json.arr (es.map serializeEntry)

/-- Parse one serialized record back: look the fields up by key (as
`JSON.parse` plus property access would), requiring `timestamp` and a
recognizable `type`, and reading whichever payload fields are present. -/
def parseEntry : Json → Option EventLogEntry
  | .obj fields =>
    match fields.lookup "timestamp", fields.lookup "type" with
    | some (.num ts), some (.str tyS) =>
      match decodeType tyS with
      | some ty =>
        let value := match fields.lookup "value" with
          | some (.str v) => some v
          | _ => none
        let key := match fields.lookup "key" with
          | some (.str k) => some k
          | _ => none
        let coords := match fields.lookup "coords" with
          | some (.obj cf) =>
            match cf.lookup "x", cf.lookup "y" with
            | some (.num x), some (.num y) => some ⟨x, y⟩
            | _, _ => none
          | _ => none
        some ⟨ts, ty, value, key, coords⟩
      | none => none
    | _, _ => none
  | _ => none

/-- Parse a list of serialized records, failing if any record fails. -/
def parseEntries : List Json → Option (List EventLogEntry)
  | [] => some []
  | j :: rest =>
    match parseEntry j, parseEntries rest with
    | some e, some es => some (e :: es)
    | _, _ => none

/-- Parse a serialized event log back into its records. -/
def parseLog : Json → Option (List EventLogEntry)
  | .arr elems => parseEntries elems
  | _ => none

/-! ### Concrete scenario states -/

/-- A staged paste awaiting commit, used to instantiate the commit theorem. -/
def c2State : EditorState :=
  step (.citationInput "(Doe, 2020)") (step (.paste "quoted passage" (some 0)) initState)

/-- The state after the first paste-commit round in the C1 scenario:
paste "hello world", type the citation, commit with fresh id "101". -/
def c1CommitState : EditorState :=
  step (.addReference "101" none)
    (step (.citationInput "(IPCC, 2023)")
      (step (.paste "hello world" (some 0)) initState))

/-- The state after pasting the same text again and pressing Cancel. -/
def c1AfterCancel : EditorState :=
  step EditorEvent.cancelDialog (step (.paste "hello world" (some 3)) c1CommitState)

/-- The state after a commit of "climate data" in the C4 scenario. -/
def c4CommitState : EditorState :=
  step (.addReference "7" none)
    (step (.citationInput "(Smith, 2024)")
      (step (.paste "climate data" (some 0)) initState))

/-- The same text pasted again, then the dialog dismissed without commit. -/
def c4AfterDismiss : EditorState :=
  step EditorEvent.dismissDialog (step (.paste "climate data" (some 0)) c4CommitState)

/-- A state with two committed references, nonzero counters and fifteen
recorded sampler ticks, used to instantiate the clear-document theorem. -/
def c5State : EditorState :=
  ticks 15
    { initState with
      references := [⟨"1", "alpha", "(A)"⟩, ⟨"2", "beta", "(B)"⟩]
      doc := [DNode.refSpan "1" "alpha", DNode.text " ", DNode.refSpan "2" "beta"]
      charAmount := 9
      backspaceAmount := 4 }

/-- A state with nonzero counters and empty series, used to instantiate
the sampler theorem. -/
def c6State : EditorState :=
  { initState with charAmount := 5, backspaceAmount := 2 }

/-- A document text comfortably over the 30-trimmed-character threshold. -/
def c7LongText : String :=
  "This document text is sufficiently long for question generation."

/-- An upstream reply containing two tagged question lines. -/
def c7ReplyText : String := "Q: What is discussed?\nSome prose.\nQ: Why does it matter?"

/-! ### Helper lemmas -/

theorem isRefSpanId_eq_false_of_isMarker {n : DNode} (h : isMarker n = true)
    (id : String) : isRefSpanId id n = false := by
  cases n <;> simp_all [isMarker, isRefSpanId]

theorem dialogCloseEffect_counters (s : EditorState) :
    (dialogCloseEffect s).references = s.references ∧
    (dialogCloseEffect s).charAmount = s.charAmount ∧
    (dialogCloseEffect s).backspaceAmount = s.backspaceAmount ∧
    (dialogCloseEffect s).charSeries = s.charSeries ∧
    (dialogCloseEffect s).backspaceSeries = s.backspaceSeries := by
  unfold dialogCloseEffect
  by_cases h1 : s.isDialogOpen = true
  · simp [h1]
  · by_cases h2 : hasMarker s.doc = false
    · simp [h1, h2]
    · by_cases h3 : (s.references.any fun r => r.text == s.selectedText) = true
      · simp [h1, h2, h3]
      · simp [h1, h2, h3]

theorem dialogCloseEffect_of_wasAdded (s : EditorState)
    (h : (s.references.any fun r => r.text == s.selectedText) = true) :
    dialogCloseEffect s = s := by
  unfold dialogCloseEffect
  split
  · rfl
  · split
    · rfl
    · simp [h]

theorem refSpanCount_insertAt (id : String) (cursor : Option Nat)
    (block d : List DNode) :
    refSpanCount id (insertAt cursor block d)
      = refSpanCount id block + refSpanCount id d := by
  cases cursor with
  | none =>
    simp [insertAt, refSpanCount, List.countP_append, Nat.add_comm]
  | some i =>
    have hd : (d.take i).countP (isRefSpanId id) + (d.drop i).countP (isRefSpanId id)
        = d.countP (isRefSpanId id) := by
      rw [← List.countP_append, List.take_append_drop]
    simp only [insertAt, refSpanCount, List.countP_append]
    omega

theorem refSpanCount_replaceFirstMarker (id : String) (block : List DNode) :
    ∀ d, hasMarker d = true →
      refSpanCount id (replaceFirstMarker block d)
        = refSpanCount id block + refSpanCount id d := by
  intro d
  induction d with
  | nil => intro h; simp [hasMarker] at h
  | cons n rest ih =>
    intro hd
    cases hm : isMarker n with
    | true =>
      simp [replaceFirstMarker, hm, refSpanCount, List.countP_append, List.countP_cons,
        isRefSpanId_eq_false_of_isMarker hm]
    | false =>
      have hrest : hasMarker rest = true := by
        simp only [hasMarker, List.any_cons, Bool.or_eq_true] at hd
        rcases hd with h | h
        · rw [hm] at h; exact absurd h (by simp)
        · exact h
      have := ih hrest
      simp only [refSpanCount] at this
      simp [replaceFirstMarker, hm, refSpanCount, List.countP_cons, this]
      omega

theorem refSpanCount_removeFirstRefSpan (id : String) :
    ∀ d, refSpanCount id (removeFirstRefSpan id d) = refSpanCount id d - 1 := by
  intro d
  induction d with
  | nil => rfl
  | cons n rest ih =>
    cases h : isRefSpanId id n with
    | true => simp [removeFirstRefSpan, h, refSpanCount, List.countP_cons]
    | false =>
      simp only [refSpanCount] at ih
      simp [removeFirstRefSpan, h, refSpanCount, List.countP_cons, ih]

theorem docRefIds_contains_iff (id : String) (d : List DNode) :
    ((docRefIds d).contains id = true) ↔ 0 < refSpanCount id d := by
  rw [refSpanCount, List.countP_pos_iff]
  constructor
  · intro h
    have hm : id ∈ docRefIds d := by simpa using h
    rw [docRefIds] at hm
    obtain ⟨n, hn, hf⟩ := List.mem_filterMap.mp hm
    refine ⟨n, hn, ?_⟩
    cases n <;> simp_all [isRefSpanId]
  · rintro ⟨n, hn, hp⟩
    have hm : id ∈ docRefIds d := by
      rw [docRefIds]
      refine List.mem_filterMap.mpr ⟨n, hn, ?_⟩
      cases n <;> simp_all [isRefSpanId]
    simpa using hm

theorem ticks_charAmount (N : Nat) : ∀ s, (ticks N s).charAmount = s.charAmount := by
  induction N with
  | zero => intro s; rfl
  | succ n ih => intro s; simp [ticks, ih, samplerTick]

theorem ticks_backspaceAmount (N : Nat) :
    ∀ s, (ticks N s).backspaceAmount = s.backspaceAmount := by
  induction N with
  | zero => intro s; rfl
  | succ n ih => intro s; simp [ticks, ih, samplerTick]

theorem ticks_charSeries (N : Nat) :
    ∀ s, (ticks N s).charSeries = s.charSeries ++ List.replicate N s.charAmount := by
  induction N with
  | zero => intro s; simp [ticks]
  | succ n ih =>
    intro s
    show (ticks n (samplerTick s)).charSeries = _
    rw [ih (samplerTick s)]
    simp [samplerTick, List.replicate_succ]

/-- Claim C1 (failing-input evidence): paste "hello world", commit it as a
reference, paste the same text again and press Cancel.  The
`wasAddedAsReference` test compares the staged text against every stored
reference's text, matches the earlier reference, and wrongly treats the
close as a commit, so the cancel path does not remove the Position Marker:
one marker remains in the document, although the visible text content is
indeed unchanged from immediately before the second paste. -/
theorem cancel_after_pasting_committed_text_leaves_marker :
    docText c1AfterCancel.doc = docText c1CommitState.doc ∧
    markerCount c1AfterCancel.doc = 1 := by decide

/-- Claim C4 (failing-input evidence): after pasting text equal to the
sourceText of a previously committed reference and dismissing the dialog,
the marker is not removed on that exit path (count 1); pasting once more
then yields two markers in the document at once, violating the
at-most-one-marker invariant as well. -/
theorem marker_survives_dismissal_exit_path :
    markerCount c4AfterDismiss.doc = 1 ∧
    markerCount (step (.paste "unrelated fresh text" (some 0)) c4AfterDismiss).doc = 2 := by
  decide

theorem handleAddReference_success (newId : String) (fb : Option Nat) (s : EditorState)
    (hc : strTrim s.citation ≠ "") (ht : strTrim s.selectedText ≠ "") :
    handleAddReference newId fb s =
      { s with
        references := s.references ++ [⟨newId, s.selectedText, s.citation⟩]
        doc := if hasMarker s.doc then
                 replaceFirstMarker
                   [DNode.refSpan newId s.selectedText, DNode.text nbsp, DNode.normalSpan ""]
                   s.doc
               else
                 insertAt fb
                   [DNode.refSpan newId s.selectedText, DNode.text nbsp, DNode.normalSpan ""]
                   s.doc
        isDialogOpen := false
        citation := "" } := by
  have hcond : ¬(strTrim s.citation = "" ∨ strTrim s.selectedText = "") := by
    rintro (h | h)
    · exact hc h
    · exact ht h
  show (if strTrim s.citation = "" ∨ strTrim s.selectedText = "" then s else _) = _
  rw [if_neg hcond]
  exact dialogCloseEffect_of_wasAdded _ (by simp)

/-- Claim C2: a commit with citation and captured text non-empty after
trimming appends exactly one reference whose text is the originally pasted
(staged) text, and the document gains exactly one span carrying the fresh
id; with an empty-after-trim citation or captured text the commit is a
no-op (state unchanged, so the dialog stays open). -/
theorem commit_adds_one_reference_and_one_span :
    (∀ (s : EditorState) (newId : String) (fb : Option Nat),
      strTrim s.citation ≠ "" → strTrim s.selectedText ≠ "" →
      refSpanCount newId s.doc = 0 →
      (handleAddReference newId fb s).references
          = s.references ++ [⟨newId, s.selectedText, s.citation⟩] ∧
      refSpanCount newId (handleAddReference newId fb s).doc = 1 ∧
      (handleAddReference newId fb s).isDialogOpen = false) ∧
    (∀ (s : EditorState) (newId : String) (fb : Option Nat),
      strTrim s.citation = "" ∨ strTrim s.selectedText = "" →
      handleAddReference newId fb s = s) := by
  constructor
  · intro s newId fb hc ht hfresh
    rw [handleAddReference_success newId fb s hc ht]
    have hblock : refSpanCount newId
        [DNode.refSpan newId s.selectedText, DNode.text nbsp, DNode.normalSpan ""] = 1 := by
      simp [refSpanCount, isRefSpanId, List.countP_cons, List.countP_nil]
    refine ⟨rfl, ?_, rfl⟩
    by_cases hm : hasMarker s.doc = true
    · simp only [hm, if_true]
      rw [refSpanCount_replaceFirstMarker newId _ s.doc hm, hblock, hfresh]
    · have hm' : hasMarker s.doc = false := by
        cases h : hasMarker s.doc
        · rfl
        · exact absurd h hm
      simp only [hm', Bool.false_eq_true, if_false]
      rw [refSpanCount_insertAt, hblock, hfresh]
  · intro s newId fb h
    show (if strTrim s.citation = "" ∨ strTrim s.selectedText = "" then s else _) = s
    rw [if_pos h]

/-- Concrete instantiation of the commit theorem: a staged paste with a
non-empty citation commits into a store with one new entry and a document
with one new span, and an empty citation makes the commit a no-op. -/
theorem commit_adds_one_reference_and_one_span_witness :
    (handleAddReference "9" none c2State).references
        = c2State.references ++ [⟨"9", c2State.selectedText, c2State.citation⟩] ∧
    refSpanCount "9" (handleAddReference "9" none c2State).doc = 1 ∧
    (handleAddReference "9" none c2State).isDialogOpen = false := by
  exact commit_adds_one_reference_and_one_span.1 c2State "9" none
    (by decide) (by decide) (by decide)

theorem ticks_backspaceSeries (N : Nat) :
    ∀ s, (ticks N s).backspaceSeries
      = s.backspaceSeries ++ List.replicate N s.backspaceAmount := by
  induction N with
  | zero => intro s; simp [ticks]
  | succ n ih =>
    intro s
    show (ticks n (samplerTick s)).backspaceSeries = _
    rw [ih (samplerTick s)]
    simp [samplerTick, List.replicate_succ]


theorem handleAddReference_counters (newId : String) (fb : Option Nat) (s : EditorState) :
    (handleAddReference newId fb s).charAmount = s.charAmount ∧
    (handleAddReference newId fb s).backspaceAmount = s.backspaceAmount := by
  unfold handleAddReference
  split
  · exact ⟨rfl, rfl⟩
  · exact ⟨(dialogCloseEffect_counters _).2.1, (dialogCloseEffect_counters _).2.2.1⟩

/-- Claim C3: after every document-change notification the reference store
equals its previous value filtered to the ids present as span attributes in
the new document; consequently, removing a reference span via the sidebar
action and deleting that span by direct editing (followed by the input
notification) converge: in both outcomes the store holds no reference with
that id and the document holds no span with that id. -/
theorem store_is_filtered_projection :
    (∀ (inputType : String) (doc' : List DNode) (s : EditorState),
      (handleEditorInput inputType doc' s).references
        = s.references.filter fun r => (docRefIds doc').contains r.id) ∧
    (∀ (s : EditorState) (id : String) (inputType : String),
      refSpanCount id s.doc ≤ 1 →
      ((∀ r ∈ (handleRemoveReference id s).references, r.id ≠ id) ∧
        refSpanCount id (handleRemoveReference id s).doc = 0) ∧
      ((∀ r ∈ (handleEditorInput inputType (removeFirstRefSpan id s.doc) s).references,
          r.id ≠ id) ∧
        refSpanCount id
          (handleEditorInput inputType (removeFirstRefSpan id s.doc) s).doc = 0)) := by
  refine ⟨fun t d s => rfl, ?_⟩
  intro s id t hle
  have hzero : refSpanCount id (removeFirstRefSpan id s.doc) = 0 := by
    rw [refSpanCount_removeFirstRefSpan]
    omega
  refine ⟨⟨?_, hzero⟩, ⟨?_, hzero⟩⟩
  · intro r hr
    have h := List.mem_filter.mp hr
    simpa using h.2
  · intro r hr
    have h := List.mem_filter.mp hr
    intro heq
    have hcont : ((docRefIds (removeFirstRefSpan id s.doc)).contains r.id) = true := h.2
    rw [heq] at hcont
    have := (docRefIds_contains_iff id _).mp hcont
    omega

/-- Concrete instantiation of the convergence theorem on a document holding
one span for the removed id. -/
theorem store_is_filtered_projection_witness :
    ((∀ r ∈ (handleRemoveReference "1" c5State).references, r.id ≠ "1") ∧
      refSpanCount "1" (handleRemoveReference "1" c5State).doc = 0) ∧
    ((∀ r ∈ (handleEditorInput "deleteContentBackward"
        (removeFirstRefSpan "1" c5State.doc) c5State).references, r.id ≠ "1") ∧
      refSpanCount "1"
        (handleEditorInput "deleteContentBackward"
          (removeFirstRefSpan "1" c5State.doc) c5State).doc = 0) :=
  store_is_filtered_projection.2 c5State "1" "deleteContentBackward" (by decide)

/-- Claim C5: no operation other than the explicit document clear ever
decreases either counter, and the clear action in one step zeroes both
counters, empties both activity series and empties the reference store. -/
theorem counters_monotone_and_clear_resets :
    (∀ (e : EditorEvent) (s : EditorState), e ≠ EditorEvent.clearDocument →
      s.charAmount ≤ (step e s).charAmount ∧
      s.backspaceAmount ≤ (step e s).backspaceAmount) ∧
    (∀ s : EditorState,
      (step EditorEvent.clearDocument s).charAmount = 0 ∧
      (step EditorEvent.clearDocument s).backspaceAmount = 0 ∧
      (step EditorEvent.clearDocument s).charSeries = [] ∧
      (step EditorEvent.clearDocument s).backspaceSeries = [] ∧
      (step EditorEvent.clearDocument s).references = []) := by
  constructor
  · intro e s hne
    cases e with
    | paste clip cursor =>
      show s.charAmount ≤ (handleEditorPaste clip cursor s).charAmount ∧
        s.backspaceAmount ≤ (handleEditorPaste clip cursor s).backspaceAmount
      unfold handleEditorPaste
      split
      · exact ⟨le_refl _, le_refl _⟩
      · exact ⟨le_refl _, le_refl _⟩
    | input t d =>
      show s.charAmount ≤ (handleEditorInput t d s).charAmount ∧
        s.backspaceAmount ≤ (handleEditorInput t d s).backspaceAmount
      unfold handleEditorInput
      constructor
      · show s.charAmount ≤ if (t == "insertText") = true then s.charAmount + _ else s.charAmount
        split
        · exact Nat.le_add_right _ _
        · exact le_refl _
      · show s.backspaceAmount ≤
          if (t == "insertText") = true then s.backspaceAmount
          else if strStartsWith t "delete" = true then s.backspaceAmount + _
          else s.backspaceAmount
        split
        · exact le_refl _
        · split
          · exact Nat.le_add_right _ _
          · exact le_refl _
    | citationInput c => exact ⟨le_refl _, le_refl _⟩
    | addReference i fb =>
      have h := handleAddReference_counters i fb s
      show s.charAmount ≤ (handleAddReference i fb s).charAmount ∧
        s.backspaceAmount ≤ (handleAddReference i fb s).backspaceAmount
      rw [h.1, h.2]
      exact ⟨le_refl _, le_refl _⟩
    | cancelDialog =>
      have h := dialogCloseEffect_counters { s with isDialogOpen := false, citation := "" }
      show s.charAmount ≤ (handleCancelDialog s).charAmount ∧
        s.backspaceAmount ≤ (handleCancelDialog s).backspaceAmount
      unfold handleCancelDialog
      rw [h.2.1, h.2.2.1]
      exact ⟨le_refl _, le_refl _⟩
    | dismissDialog =>
      have h := dialogCloseEffect_counters { s with isDialogOpen := false }
      show s.charAmount ≤ (Detext.dismissDialog s).charAmount ∧
        s.backspaceAmount ≤ (Detext.dismissDialog s).backspaceAmount
      unfold Detext.dismissDialog
      rw [h.2.1, h.2.2.1]
      exact ⟨le_refl _, le_refl _⟩
    | removeReference i => exact ⟨le_refl _, le_refl _⟩
    | clearDocument => exact absurd rfl hne
    | tick => exact ⟨le_refl _, le_refl _⟩
  · intro s
    exact ⟨rfl, rfl, rfl, rfl, rfl⟩

/-- Concrete instantiation: with two references stored, counters at 9 and 4
and fifteen recorded ticks, an insertion event does not decrease the
keystroke counter, and the clear action resets everything at once. -/
theorem counters_monotone_and_clear_resets_witness :
    (c5State.charAmount ≤
        (step (EditorEvent.input "insertText" [DNode.text "xy"]) c5State).charAmount ∧
      c5State.backspaceAmount ≤
        (step (EditorEvent.input "insertText" [DNode.text "xy"]) c5State).backspaceAmount) ∧
    (step EditorEvent.clearDocument c5State).charAmount = 0 ∧
    (step EditorEvent.clearDocument c5State).backspaceAmount = 0 ∧
    (step EditorEvent.clearDocument c5State).charSeries = [] ∧
    (step EditorEvent.clearDocument c5State).backspaceSeries = [] ∧
    (step EditorEvent.clearDocument c5State).references = [] :=
  ⟨counters_monotone_and_clear_resets.1 (EditorEvent.input "insertText" [DNode.text "xy"])
      c5State (by decide),
    counters_monotone_and_clear_resets.2 c5State⟩



/-- Claim C6: every sampler tick appends the current cumulative counters to
both series unconditionally, so after `N` ticks with no intervening edits
(starting from empty series) both series have length `N` and, for `N ≥ 2`,
the last two values of each series are equal. -/
theorem sampler_appends_unconditionally :
    (∀ s : EditorState,
      (samplerTick s).charSeries = s.charSeries ++ [s.charAmount] ∧
      (samplerTick s).backspaceSeries = s.backspaceSeries ++ [s.backspaceAmount]) ∧
    (∀ (s : EditorState) (N : Nat), s.charSeries = [] → s.backspaceSeries = [] →
      ((ticks N s).charSeries.length = N ∧ (ticks N s).backspaceSeries.length = N) ∧
      (2 ≤ N →
        (ticks N s).charSeries.drop (N - 2) = [s.charAmount, s.charAmount] ∧
        (ticks N s).backspaceSeries.drop (N - 2)
          = [s.backspaceAmount, s.backspaceAmount])) := by
  refine ⟨fun s => ⟨rfl, rfl⟩, ?_⟩
  intro s N hc hb
  have h1 := ticks_charSeries N s
  have h2 := ticks_backspaceSeries N s
  rw [hc, List.nil_append] at h1
  rw [hb, List.nil_append] at h2
  refine ⟨⟨by rw [h1, List.length_replicate], by rw [h2, List.length_replicate]⟩, ?_⟩
  intro hN
  have hdrop : N - (N - 2) = 2 := by omega
  rw [h1, h2, List.drop_replicate, List.drop_replicate, hdrop]
  exact ⟨rfl, rfl⟩

/-- Concrete instantiation: three ticks on empty series with counters 5 and
2 give series of length three ending in two equal values. -/
theorem sampler_appends_unconditionally_witness :
    ((ticks 3 c6State).charSeries.length = 3 ∧
      (ticks 3 c6State).backspaceSeries.length = 3) ∧
    (2 ≤ 3 →
      (ticks 3 c6State).charSeries.drop (3 - 2)
        = [c6State.charAmount, c6State.charAmount] ∧
      (ticks 3 c6State).backspaceSeries.drop (3 - 2)
        = [c6State.backspaceAmount, c6State.backspaceAmount]) :=
  sampler_appends_unconditionally.2 c6State 3 rfl rfl

theorem padQuestions_length (qs : List String) : (padQuestions qs).length = 3 := by
  simp only [padQuestions, List.length_take, List.length_append, List.length_replicate]
  omega

/-- Claim C7: the question-generation endpoint rejects a missing,
non-string or under-30-trimmed-characters text with a 400 error response
and no upstream call; every 200 response carries exactly 3 questions,
obtained from the upstream reply by extracting the tagged lines, padding
with the fixed default question and truncating to 3. -/
theorem generate_questions_handler_contract :
    (∀ (text : Option BodyText) (apiKey : Option String) (up : UpstreamResult),
      invalidInput text = true →
      (handler "POST" text apiKey up).status = 400 ∧
      (handler "POST" text apiKey up).error = some "Invalid input" ∧
      (handler "POST" text apiKey up).calledUpstream = false) ∧
    (invalidInput none = true ∧ invalidInput (some BodyText.nonString) = true ∧
      ∀ t : String, (strTrim t).length < 30 → invalidInput (some (BodyText.str t)) = true) ∧
    (∀ (m : String) (text : Option BodyText) (apiKey : Option String) (up : UpstreamResult),
      (handler m text apiKey up).status = 200 →
      (handler m text apiKey up).questions.length = 3) ∧
    (∀ (text : Option BodyText) (k rt : String),
      invalidInput text = false →
      handler "POST" text (some k) (UpstreamResult.ok (some rt))
        = { status := 200, questions := padQuestions (extractQuestions rt),
            error := none, calledUpstream := true }) := by
  refine ⟨?_, ⟨rfl, rfl, ?_⟩, ?_, ?_⟩
  · intro text apiKey up h
    simp [handler, h]
  · intro t h
    simp [invalidInput, h]
  · intro m text apiKey up
    unfold handler
    by_cases hm : m ≠ "POST"
    · rw [if_pos hm]
      intro h
      exact absurd h (by decide)
    · rw [if_neg hm]
      by_cases hv : invalidInput text = true
      · rw [if_pos hv]
        intro h
        exact absurd h (by decide)
      · rw [if_neg hv]
        cases apiKey with
        | none =>
          intro h
          exact absurd (show (500 : Nat) = 200 from h) (by decide)
        | some key =>
          cases up with
          | httpError st notOk =>
            intro h
            exact absurd (show st = 200 from h) (by omega)
          | threw =>
            intro h
            exact absurd (show (500 : Nat) = 200 from h) (by decide)
          | ok rt =>
            intro _
            exact padQuestions_length _
  · intro text k rt h
    simp [handler, h]

/-- Concrete instantiation of the endpoint contract: a short text is
rejected locally with status 400 and no upstream call, and a valid request
against a reply with two tagged lines yields exactly 3 questions. -/
theorem generate_questions_handler_contract_witness :
    ((handler "POST" (some (BodyText.str "too short")) none UpstreamResult.threw).status = 400 ∧
      (handler "POST" (some (BodyText.str "too short")) none UpstreamResult.threw).error
        = some "Invalid input" ∧
      (handler "POST" (some (BodyText.str "too short")) none
          UpstreamResult.threw).calledUpstream = false) ∧
    invalidInput (some (BodyText.str "too short")) = true ∧
    (handler "POST" (some (BodyText.str c7LongText)) (some "key")
        (UpstreamResult.ok (some c7ReplyText))).questions.length = 3 ∧
    handler "POST" (some (BodyText.str c7LongText)) (some "key")
        (UpstreamResult.ok (some c7ReplyText))
      = { status := 200, questions := padQuestions (extractQuestions c7ReplyText),
          error := none, calledUpstream := true } :=
  ⟨generate_questions_handler_contract.1 (some (BodyText.str "too short")) none
      UpstreamResult.threw (by decide),
    generate_questions_handler_contract.2.1.2.2 "too short" (by decide),
    generate_questions_handler_contract.2.2.1 "POST" (some (BodyText.str c7LongText))
      (some "key") (UpstreamResult.ok (some c7ReplyText)) (by decide),
    generate_questions_handler_contract.2.2.2 (some (BodyText.str c7LongText)) "key"
      c7ReplyText (by decide)⟩

/-- Claim C8 counterexample: invoking the generation action while the busy
flag (`isGeneratingQuestions`) is already set still issues a network
request whenever the text is long enough — the handler never consults the
busy flag, so re-entrancy is not prevented. -/
theorem generation_requests_even_while_busy :
    (handleGenerateQuestions
        "This document certainly has more than thirty characters." true).requested
      = true := by decide

/-- Claim C8 as amended: the busy flag does not gate re-entrancy (a long
enough text always issues the request, whatever the flag's value), while
the insufficient-text precondition is checked locally: under 30 trimmed
characters the user is notified and no network call is made. -/
theorem generation_local_precondition_no_busy_guard :
    (∀ (text : String) (busy : Bool), (strTrim text).length < 30 →
      (handleGenerateQuestions text busy).requested = false ∧
      (handleGenerateQuestions text busy).alerted = true) ∧
    (∀ (text : String) (busy : Bool), 30 ≤ (strTrim text).length →
      (handleGenerateQuestions text busy).requested = true) := by
  constructor
  · intro text busy h
    have hcond : text = "" ∨ (strTrim text).length < 30 := Or.inr h
    simp [handleGenerateQuestions, hcond]
  · intro text busy h
    have hcond : ¬(text = "" ∨ (strTrim text).length < 30) := by
      rintro (rfl | hlt)
      · exact absurd h (by decide)
      · omega
    simp [handleGenerateQuestions, hcond]

/-- Concrete instantiation of the amended claim: a 4-character text is
rejected locally with a notification and no request, and a long text
issues the request even with the busy flag set. -/
theorem generation_local_precondition_no_busy_guard_witness :
    ((handleGenerateQuestions "tiny" false).requested = false ∧
      (handleGenerateQuestions "tiny" false).alerted = true) ∧
    (handleGenerateQuestions c7LongText true).requested = true :=
  ⟨generation_local_precondition_no_busy_guard.1 "tiny" false (by decide),
    generation_local_precondition_no_busy_guard.2 c7LongText true (by decide)⟩

theorem parseEntry_serializeEntry (e : EventLogEntry) :
    parseEntry (serializeEntry e) = some e := by
  obtain ⟨ts, ty, v, k, c⟩ := e
  cases ty <;> cases v <;> cases k <;> rcases c with _ | ⟨x, y⟩ <;>
    simp [serializeEntry, parseEntry, typeTag, decodeType, List.lookup]

/-- Claim C9: serializing the ordered event-log records (with their
timestamp, type tag and type-specific payload, in stable field order) and
parsing the export back yields exactly the logged records — same count,
same order, same field values. -/
theorem event_log_round_trip (es : List EventLogEntry) :
    parseLog (serializeLog es) = some es := by
  show parseEntries (es.map serializeEntry) = some es
  induction es with
  | nil => rfl
  | cons e rest ih =>
    show parseEntries (serializeEntry e :: rest.map serializeEntry) = _
    unfold parseEntries
    rw [parseEntry_serializeEntry, ih]

/-- Claim C10: an input event whose type is neither `insertText` nor a
`delete*` type changes neither counter but still updates the text-length
baseline to the new length, so the absorbed length change is never
attributed to a counter by a later event: a subsequent `insertText` event
adds only the distance from the absorbed length to its own new length. -/
theorem other_input_types_touch_no_counter
    (s : EditorState) (t : String) (doc' : List DNode)
    (h1 : t ≠ "insertText") (h2 : strStartsWith t "delete" = false) :
    (handleEditorInput t doc' s).charAmount = s.charAmount ∧
    (handleEditorInput t doc' s).backspaceAmount = s.backspaceAmount ∧
    (handleEditorInput t doc' s).oldTextLength = (docText doc').length ∧
    (∀ doc'' : List DNode,
      (handleEditorInput "insertText" doc'' (handleEditorInput t doc' s)).charAmount
        = s.charAmount
          + (((docText doc'').length : Int) - ((docText doc').length : Int)).natAbs) := by
  have hbeq : (t == "insertText") = false := by
    simpa using h1
  refine ⟨?_, ?_, rfl, ?_⟩
  · simp [handleEditorInput, hbeq]
  · simp [handleEditorInput, hbeq, h2]
  · intro doc''
    simp [handleEditorInput, hbeq, h2]

/-- Concrete instantiation: a paste-type insertion of three characters
leaves both counters at zero and moves the baseline to 3, and a later
one-character `insertText` adds exactly 1 to the keystroke counter. -/
theorem other_input_types_touch_no_counter_witness :
    (handleEditorInput "insertFromPaste" [DNode.text "abc"] initState).charAmount
        = initState.charAmount ∧
    (handleEditorInput "insertFromPaste" [DNode.text "abc"] initState).backspaceAmount
        = initState.backspaceAmount ∧
    (handleEditorInput "insertFromPaste" [DNode.text "abc"] initState).oldTextLength
        = (docText [DNode.text "abc"]).length ∧
    (∀ doc'' : List DNode,
      (handleEditorInput "insertText" doc''
          (handleEditorInput "insertFromPaste" [DNode.text "abc"] initState)).charAmount
        = initState.charAmount
          + (((docText doc'').length : Int)
              - ((docText [DNode.text "abc"]).length : Int)).natAbs) :=
  other_input_types_touch_no_counter initState "insertFromPaste" [DNode.text "abc"]
    (by decide) (by decide)


end Detext
